import Mathlib

/-!
Shallow embedding of the log scanning, classification and publication logic of
`scripts/monitor.py` (with the keyword lists from `scripts/config.py`).

Encoding notes.

* Classification (`check_container_logs`, lines 170-209) lowercases the subject
  line for the keyword filter and runs every regex with `re.I`; all the regex
  literals involved are ASCII.  We therefore model a line as its list of
  case-folded ASCII codepoints (`lowerCodes`) and translate each regex into an
  executable matcher over codepoint lists.  Word boundaries (`\b`) separate a
  word character (ASCII alphanumeric or underscore) from a non-word character
  or the string edge; ASCII case folding preserves word-character status, so
  computing boundaries on the folded line is equivalent to the source.
* The per-container publication state (`check_container_logs`, lines 200-209,
  together with the module-level sticky set `containers_with_errors`, line 46)
  is modelled as a state machine: one `containerCycle` consumes the outcome of
  one scan window (either a fetch failure, lines 163-168, or the list of
  classified events) and folds the cycle's MQTT publications into the retained
  topic values.  Retained topics are `Option`-valued: `none` means the topic
  has never been published.
* The kernel path (`check_kernel_errors`, lines 335-363) is modelled the same
  way; its keyword match (line 356, `kw in line`) is exact, case-sensitive
  substring containment.
* Timestamps (`datetime.now`) are opaque inputs; ANSI stripping (line 176) and
  `line.strip()` happen upstream of classification, so classifier inputs below
  are already-normalized lines.
-/

namespace Monitor

/-- An ASCII codepoint (`ord` of a character). -/
abbrev Code := Nat

/-- ASCII case folding on a codepoint, as performed by `str.lower()` / `re.I`
on ASCII text. -/
def codeLower (n : Code) : Code := if 65 ≤ n ∧ n ≤ 90 then n + 32 else n

/-- A line, viewed as its case-folded codepoints. -/
def lowerCodes (l : List Char) : List Code := l.map (fun c => codeLower c.toNat)

/-- Codepoints of a (lowercase ASCII) pattern literal. -/
def codes (s : String) : List Code := s.toList.map Char.toNat

/-- Word characters for the `\b` regex boundary (ASCII `\w`). -/
def isWordCode (n : Code) : Bool :=
  (48 ≤ n && n ≤ 57) || (65 ≤ n && n ≤ 90) || (97 ≤ n && n ≤ 122) || n == 95

/-- Whitespace for the `\s` regex class (ASCII). -/
def isSpaceCode (n : Code) : Bool :=
  n == 32 || n == 9 || n == 10 || n == 11 || n == 12 || n == 13

/-- A `\b` boundary holds before the current position given the previous
codepoint (`none` at the start of the line). -/
def bndBefore : Option Code → Bool
  | none => true
  | some c => !isWordCode c

/-- A `\b` boundary holds at the head of the remaining codepoints (or at the
end of the line). -/
def bndAfter : List Code → Bool
  | [] => true
  | c :: _ => !isWordCode c

/-- The word `w` occurs at the current position with a trailing boundary. -/
def wordAt (w s : List Code) : Bool :=
  w.isPrefixOf s && bndAfter (s.drop w.length)

/-- Scan for `\b<w>\b`, tracking the previous codepoint. -/
def wordScan (w : List Code) : Option Code → List Code → Bool
  | prev, [] => bndBefore prev && wordAt w []
  | prev, c :: rest => (bndBefore prev && wordAt w (c :: rest)) || wordScan w (some c) rest

/-- `re.search` of a word-boundary pattern `\b<w>\b`. -/
def wordHit (w s : List Code) : Bool := wordScan w none s

/-- Python's `in`: `pat` occurs contiguously inside `s`. -/
def hasSub {α : Type} [DecidableEq α] (pat : List α) : List α → Bool
  | [] => pat.isEmpty
  | c :: rest => pat.isPrefixOf (c :: rest) || hasSub pat rest

/-- Plain substring containment (a regex alternative with no boundaries). -/
def subHit (pat s : List Code) : Bool := hasSub pat s

/-- The pattern `"level"\s*:\s*"<lvl>"` anchored at the head of `s`
(the literal `"level"` is 7 codepoints; 58 is `:`, 34 is the double quote). -/
def jsonLevelAt (lvl : List Code) (s : List Code) : Bool :=
  if (codes "\"level\"").isPrefixOf s then
    match (s.drop 7).dropWhile isSpaceCode with
    | 58 :: rest => ((34 :: lvl) ++ [34]).isPrefixOf (rest.dropWhile isSpaceCode)
    | _ => false
  else false

/-- Search an anchored matcher at every position of the line. -/
def anyPos (p : List Code → Bool) : List Code → Bool
  | [] => p []
  | c :: rest => p (c :: rest) || anyPos p rest

/-- `re.search` of `"level"\s*:\s*"<lvl>"`. -/
def jsonLevelHit (lvl : List Code) (s : List Code) : Bool := anyPos (jsonLevelAt lvl) s

/-- `config.ERROR_KEYWORDS`. -/
def ERROR_KEYWORDS : List String :=
  ["ERROR", "CRITICAL", "WARN", "WARNING", "Exception", "FATAL"]

/-- Broad keyword filter, `monitor.py` lines 180-183:
`kw.lower() in clean_line.lower()` for some configured keyword. -/
def keywordHit (low : List Code) : Bool :=
  ERROR_KEYWORDS.any (fun kw => hasSub (lowerCodes kw.toList) low)

/-- Warning-tier pattern, line 189:
`\bWARN(ING)?\b|\bWRN\b|level[=:]warn|\[WARN` with `re.I`. -/
def warnHit (low : List Code) : Bool :=
  wordHit (codes "warning") low || wordHit (codes "warn") low || wordHit (codes "wrn") low ||
  subHit (codes "level=warn") low || subHit (codes "level:warn") low ||
  subHit (codes "[warn") low

/-- Critical pattern, line 193:
`\bCRITICAL\b|\bFATAL\b|level[=:]critical|"level"\s*:\s*"critical"` with `re.I`. -/
def critHit (low : List Code) : Bool :=
  wordHit (codes "critical") low || wordHit (codes "fatal") low ||
  subHit (codes "level=critical") low || subHit (codes "level:critical") low ||
  jsonLevelHit (codes "critical") low

/-- Error pattern, line 195:
`\bERROR\b|level[=:]error|"level"\s*:\s*"error"|Exception|Traceback` with `re.I`. -/
def errHit (low : List Code) : Bool :=
  wordHit (codes "error") low ||
  subHit (codes "level=error") low || subHit (codes "level:error") low ||
  jsonLevelHit (codes "error") low ||
  subHit (codes "exception") low || subHit (codes "traceback") low

/-- Severity of a classified container event. -/
inductive Sev
  | ERROR
  | CRITICAL
deriving DecidableEq

/-- The string published for a severity. -/
def Sev.str : Sev → String
  | .ERROR => "ERROR"
  | .CRITICAL => "CRITICAL"

/-- Per-line verdict on the case-folded codepoints, `monitor.py` lines 178-198:
`none` means the line yields no event. -/
def classifyCore (low : List Code) : Option Sev :=
  if keywordHit low = false then none
  else if warnHit low then none
  else if critHit low then some .CRITICAL
  else if errHit low then some .ERROR
  else some .ERROR

/-- Per-line verdict on a normalized (ANSI-stripped, stripped, non-empty)
container log line. -/
def classifyLine (clean : List Char) : Option Sev := classifyCore (lowerCodes clean)

/-- A classified container event, line 198:
`{"level": level, "msg": clean_line[:500], "timestamp": ...}`. -/
structure Event where
  level : Sev
  msg : String
  timestamp : String
deriving DecidableEq

/-- The event (if any) appended for one normalized line, line 198. -/
def scanLine (clean : List Char) (ts : String) : Option Event :=
  match classifyLine clean with
  | none => none
  | some lvl => some ⟨lvl, (clean.take 500).asString, ts⟩

/-- The `errors` list built by one scan window over its normalized lines,
lines 170-198. -/
def scanClean (window : List (List Char)) (ts : String) : List Event :=
  window.filterMap (fun clean => scanLine clean ts)

/-- Topic suffixes published per container (`containers/<name>/<suffix>`). -/
inductive CTopic
  | error_count
  | last_error
  | last_error_level
  | errors
deriving DecidableEq

/-- Payload of a per-container publication. -/
inductive CPayload
  | pInt (n : Nat)
  | pStr (s : String)
  | pObj (level msg : String)
  | pList (evs : List Event)
deriving DecidableEq

/-- One MQTT publication for a container. -/
structure CPub where
  topic : CTopic
  payload : CPayload
deriving DecidableEq

/-- Outcome of fetching and scanning one container's logs for one cycle:
either fetching raised (lines 163-168) or the scan produced an event list. -/
inductive CycleInput
  | fetchFail (msg : String)
  | scanOk (events : List Event)

/-- `xs[-1]` of the non-empty list `a :: l`. -/
def lastOf {α : Type} (a : α) : List α → α
  | [] => a
  | b :: l => lastOf b l

/-- `xs[-n:]`: the trailing `n` elements (everything when shorter). -/
def takeLast {α : Type} (n : Nat) (l : List α) : List α := l.drop (l.length - n)

/-- The publications of one container cycle, lines 163-168 and 200-209, as a
function of the sticky flag (`name in containers_with_errors`) and the cycle
outcome. -/
def containerCyclePubs (hasEver : Bool) : CycleInput → List CPub
  | .fetchFail m => [⟨.last_error, .pObj "ERROR" m⟩]
  | .scanOk [] =>
      ⟨.error_count, .pInt 0⟩ ::
        (if hasEver then []
         else [⟨.last_error, .pObj "NONE" "none"⟩, ⟨.last_error_level, .pStr "NONE"⟩])
  | .scanOk (e :: rest) =>
      [⟨.error_count, .pInt (e :: rest).length⟩,
       ⟨.last_error, .pObj (lastOf e rest).level.str (lastOf e rest).msg⟩,
       ⟨.last_error_level, .pStr (lastOf e rest).level.str⟩,
       ⟨.errors, .pList (takeLast 5 (e :: rest))⟩]

/-- Retained values of the four per-container topics (`none` = never
published; MQTT `retain=True` keeps the last published payload). -/
structure Retained where
  error_count : Option CPayload
  last_error : Option CPayload
  last_error_level : Option CPayload
  errors : Option CPayload
deriving DecidableEq

/-- Effect of one retained publication on the topic values. -/
def applyPub (r : Retained) (p : CPub) : Retained :=
  match p.topic with
  | .error_count => ⟨some p.payload, r.last_error, r.last_error_level, r.errors⟩
  | .last_error => ⟨r.error_count, some p.payload, r.last_error_level, r.errors⟩
  | .last_error_level => ⟨r.error_count, r.last_error, some p.payload, r.errors⟩
  | .errors => ⟨r.error_count, r.last_error, r.last_error_level, some p.payload⟩

/-- Full per-container state: the sticky membership in
`containers_with_errors` plus the retained topic values. -/
structure ContainerState where
  hasEverErrored : Bool
  retained : Retained
deriving DecidableEq

/-- Whether this cycle adds the container to `containers_with_errors`
(line 202: only a non-empty `errors` list does). -/
def newErrs : CycleInput → Bool
  | .fetchFail _ => false
  | .scanOk evs => !evs.isEmpty

/-- One container cycle: publish, and update the sticky flag. -/
def containerCycle (s : ContainerState) (inp : CycleInput) : ContainerState :=
  ⟨s.hasEverErrored || newErrs inp,
   (containerCyclePubs s.hasEverErrored inp).foldl applyPub s.retained⟩

/-- A sequence of cycles for one container. -/
def runCycles (s : ContainerState) (inps : List CycleInput) : ContainerState :=
  inps.foldl containerCycle s

/-- State of a freshly discovered container: not in the sticky set, nothing
published yet. -/
def initContainer : ContainerState := ⟨false, ⟨none, none, none, none⟩⟩

/-- `config.KERNEL_ERROR_KEYWORDS`. -/
def KERNEL_ERROR_KEYWORDS : List String :=
  ["i/o error", "I/O error", "nvme", "NVMe", "critical medium error", "medium error",
   "blk_update_request", "buffer I/O error", "DRDY ERR", "reset failed", "timeout"]

/-- Kernel line match, lines 355-358: exact, case-sensitive substring test
`kw in line` against the configured keywords. -/
def kernelLineMatches (line : List Char) : Bool :=
  KERNEL_ERROR_KEYWORDS.any (fun kw => hasSub kw.toList line)

/-- A kernel match record, line 357: `{"msg": line[:500], "timestamp": ...}`
(no severity field). -/
structure KEvent where
  msg : String
  timestamp : String
deriving DecidableEq

/-- The `matches` list of one kernel scan, lines 353-358 (one record per
matching line, on the first keyword that hits). -/
def kernelScan (lines : List (List Char)) (ts : String) : List KEvent :=
  lines.filterMap (fun l => if kernelLineMatches l then some ⟨(l.take 500).asString, ts⟩ else none)

/-- Topic suffixes published for the kernel (`system/<suffix>`). -/
inductive KTopic
  | io_error_count
  | last_io_error
  | kernel_errors
deriving DecidableEq

/-- Payload of a kernel publication. -/
inductive KPayload
  | pInt (n : Nat)
  | pEvent (e : KEvent)
  | pList (evs : List KEvent)
deriving DecidableEq

/-- One MQTT publication for the kernel entity. -/
structure KPub where
  topic : KTopic
  payload : KPayload
deriving DecidableEq

/-- Outcome of one kernel cycle's `dmesg` invocation: raising (lines 344-347),
non-zero exit (lines 349-351), or the scanned lines. -/
inductive KInput
  | dmesgFail
  | dmesgNonzero
  | dmesgOk (lines : List (List Char)) (ts : String)

/-- Publications from a completed kernel scan, lines 360-363. -/
def kernelPubsOf : List KEvent → List KPub
  | [] => [⟨.io_error_count, .pInt 0⟩]
  | m :: ms =>
      [⟨.io_error_count, .pInt (m :: ms).length⟩,
       ⟨.last_io_error, .pEvent (lastOf m ms)⟩,
       ⟨.kernel_errors, .pList (takeLast 10 (m :: ms))⟩]

/-- The publications of one kernel cycle, lines 337-363. -/
def kernelCyclePubs : KInput → List KPub
  | .dmesgFail => [⟨.io_error_count, .pInt 0⟩]
  | .dmesgNonzero => [⟨.io_error_count, .pInt 0⟩]
  | .dmesgOk lines ts => kernelPubsOf (kernelScan lines ts)

/-- Retained values of the kernel topics. -/
structure KernelRetained where
  io_error_count : Option KPayload
  last_io_error : Option KPayload
  kernel_errors : Option KPayload
deriving DecidableEq

/-- Effect of one retained kernel publication. -/
def kApplyPub (r : KernelRetained) (p : KPub) : KernelRetained :=
  match p.topic with
  | .io_error_count => ⟨some p.payload, r.last_io_error, r.kernel_errors⟩
  | .last_io_error => ⟨r.io_error_count, some p.payload, r.kernel_errors⟩
  | .kernel_errors => ⟨r.io_error_count, r.last_io_error, some p.payload⟩

/-- One kernel cycle. -/
def kernelCycle (r : KernelRetained) (inp : KInput) : KernelRetained :=
  (kernelCyclePubs inp).foldl kApplyPub r

/-- A sequence of kernel cycles. -/
def kernelRun (r : KernelRetained) (inps : List KInput) : KernelRetained :=
  inps.foldl kernelCycle r

/-- Kernel topics after startup, lines 136-138: count 0 and a "none" record
are published; `kernel_errors` is not. -/
def initKernel : KernelRetained := ⟨some (.pInt 0), some (.pEvent ⟨"none", ""⟩), none⟩

/-- The sticky flag survives any single cycle. -/
theorem hasEver_cycle (s : ContainerState) (inp : CycleInput)
    (h : s.hasEverErrored = true) : (containerCycle s inp).hasEverErrored = true := by
  simp [containerCycle, h]

/-- The sticky flag survives any sequence of cycles. -/
theorem hasEver_run (inps : List CycleInput) (s : ContainerState)
    (h : s.hasEverErrored = true) : (runCycles s inps).hasEverErrored = true := by
  induction inps generalizing s with
  | nil => simpa [runCycles] using h
  | cons i is ih =>
      simpa [runCycles] using ih (containerCycle s i) (hasEver_cycle s i h)

/-- The published severity strings are never the `NONE` sentinel string. -/
theorem sev_str_ne (v : Sev) : v.str ≠ "NONE" := by
  cases v <;> decide

/-- Once the sticky flag holds, no cycle's publications contain the `NONE`
sentinel for `last_error` or `last_error_level`. -/
theorem pubs_no_sentinel (inp : CycleInput) :
    (⟨.last_error, .pObj "NONE" "none"⟩ : CPub) ∉ containerCyclePubs true inp ∧
    (⟨.last_error_level, .pStr "NONE"⟩ : CPub) ∉ containerCyclePubs true inp := by
  cases inp with
  | fetchFail m => constructor <;> simp [containerCyclePubs]
  | scanOk evs =>
      cases evs with
      | nil => constructor <;> simp [containerCyclePubs]
      | cons e rest =>
          cases hlv : (lastOf e rest).level <;>
            constructor <;>
              simp [containerCyclePubs, hlv, Sev.str]

/-- C1: with the sticky flag set, an empty scan publishes only the error
count (as 0); the retained `last_error`, `last_error_level` and `errors`
topics are unchanged by the cycle. -/
theorem empty_scan_frame (r : Retained) :
    containerCyclePubs (ContainerState.mk true r).hasEverErrored (.scanOk []) =
        [⟨.error_count, .pInt 0⟩] ∧
    (containerCycle ⟨true, r⟩ (.scanOk [])).retained.last_error = r.last_error ∧
    (containerCycle ⟨true, r⟩ (.scanOk [])).retained.last_error_level = r.last_error_level ∧
    (containerCycle ⟨true, r⟩ (.scanOk [])).retained.errors = r.errors ∧
    (containerCycle ⟨true, r⟩ (.scanOk [])).retained.error_count = some (.pInt 0) := by
  refine ⟨?_, ?_, ?_, ?_, ?_⟩ <;>
    simp [containerCycle, containerCyclePubs, applyPub]

/-- C2: once a cycle yields a non-empty event list, the sticky flag stays true
after every subsequent cycle, and no subsequent cycle's publications contain
the `NONE` sentinel for `last_error` or `last_error_level`. -/
theorem sticky_flag_monotone (s : ContainerState) (e : Event) (evs : List Event)
    (rest : List CycleInput) (k : Nat) (next : CycleInput) :
    (runCycles (containerCycle s (.scanOk (e :: evs))) (rest.take k)).hasEverErrored = true ∧
    (⟨.last_error, .pObj "NONE" "none"⟩ : CPub) ∉
      containerCyclePubs
        (runCycles (containerCycle s (.scanOk (e :: evs))) (rest.take k)).hasEverErrored next ∧
    (⟨.last_error_level, .pStr "NONE"⟩ : CPub) ∉
      containerCyclePubs
        (runCycles (containerCycle s (.scanOk (e :: evs))) (rest.take k)).hasEverErrored next := by
  have h1 : (containerCycle s (.scanOk (e :: evs))).hasEverErrored = true := by
    simp [containerCycle, newErrs]
  have h2 := hasEver_run (rest.take k) _ h1
  refine ⟨h2, ?_, ?_⟩
  · rw [h2]; exact (pubs_no_sentinel next).1
  · rw [h2]; exact (pubs_no_sentinel next).2

/-- C2 witness: a concrete non-empty scan followed by an empty cycle. -/
theorem sticky_flag_monotone_check :
    (runCycles (containerCycle initContainer (.scanOk [⟨.ERROR, "boom", "t"⟩]))
        (([] : List CycleInput).take 0)).hasEverErrored = true ∧
    (⟨.last_error, .pObj "NONE" "none"⟩ : CPub) ∉
      containerCyclePubs
        (runCycles (containerCycle initContainer (.scanOk [⟨.ERROR, "boom", "t"⟩]))
          (([] : List CycleInput).take 0)).hasEverErrored (.scanOk []) ∧
    (⟨.last_error_level, .pStr "NONE"⟩ : CPub) ∉
      containerCyclePubs
        (runCycles (containerCycle initContainer (.scanOk [⟨.ERROR, "boom", "t"⟩]))
          (([] : List CycleInput).take 0)).hasEverErrored (.scanOk []) :=
  sticky_flag_monotone initContainer ⟨.ERROR, "boom", "t"⟩ [] [] 0 (.scanOk [])

/-- C9 counterexample: on a `dmesg` failure or non-zero exit the kernel cycle
publishes only `io_error_count = 0`; no synthetic error event is recorded. -/
theorem kernel_fail_pubs :
    kernelCyclePubs .dmesgFail = [⟨.io_error_count, .pInt 0⟩] ∧
    kernelCyclePubs .dmesgNonzero = [⟨.io_error_count, .pInt 0⟩] ∧
    ((kernelCyclePubs .dmesgFail).all (fun p => !(p.topic == KTopic.last_io_error))) = true :=
  ⟨rfl, rfl, rfl⟩

/-- C9 amended: a container log-fetch failure publishes exactly one synthetic
ERROR-level `last_error` carrying the failure message and the cycle moves on;
a kernel `dmesg` failure or non-zero exit publishes only `io_error_count = 0`
and records no synthetic event. -/
theorem source_failure_handling (b : Bool) (m : String) :
    containerCyclePubs b (.fetchFail m) = [⟨.last_error, .pObj "ERROR" m⟩] ∧
    kernelCyclePubs .dmesgFail = [⟨.io_error_count, .pInt 0⟩] ∧
    kernelCyclePubs .dmesgNonzero = [⟨.io_error_count, .pInt 0⟩] :=
  ⟨rfl, rfl, rfl⟩

/-- C10: a fetch-failure cycle publishes only the synthetic `last_error` (in
particular it never publishes `last_error_level`) and does not set the sticky
flag, so for a container that has never had scan errors, a following clean
scan publishes the `NONE` sentinel, overwriting the synthetic error. -/
theorem fetch_fail_not_sticky (r : Retained) (m : String) :
    containerCyclePubs (ContainerState.mk false r).hasEverErrored (.fetchFail m) =
        [⟨.last_error, .pObj "ERROR" m⟩] ∧
    (containerCycle ⟨false, r⟩ (.fetchFail m)).hasEverErrored = false ∧
    (containerCycle ⟨false, r⟩ (.fetchFail m)).retained.last_error =
        some (.pObj "ERROR" m) ∧
    (containerCycle ⟨false, r⟩ (.fetchFail m)).retained.last_error_level =
        r.last_error_level ∧
    (runCycles ⟨false, r⟩ [.fetchFail m, .scanOk []]).retained.last_error =
        some (.pObj "NONE" "none") ∧
    (runCycles ⟨false, r⟩ [.fetchFail m, .scanOk []]).retained.last_error_level =
        some (.pStr "NONE") := by
  refine ⟨rfl, ?_, ?_, ?_, ?_, ?_⟩ <;>
    simp [runCycles, containerCycle, containerCyclePubs, applyPub, newErrs]

/-- A trailing slice never exceeds its bound. -/
theorem takeLast_length_le {α : Type} (n : Nat) (l : List α) :
    (takeLast n l).length ≤ n := by
  simp [takeLast]
  omega

/-- One container cycle either leaves the retained `errors` payload alone or
replaces it with the trailing 5 events of a non-empty window. -/
theorem cycle_errors_cases (s : ContainerState) (inp : CycleInput) :
    (containerCycle s inp).retained.errors = s.retained.errors ∨
    ∃ e rest, inp = .scanOk (e :: rest) ∧
      (containerCycle s inp).retained.errors = some (.pList (takeLast 5 (e :: rest))) := by
  cases inp with
  | fetchFail m => left; simp [containerCycle, containerCyclePubs, applyPub]
  | scanOk evs =>
      cases evs with
      | nil =>
          left
          cases h : s.hasEverErrored <;>
            simp [containerCycle, containerCyclePubs, applyPub, h]
      | cons e rest =>
          right
          exact ⟨e, rest, rfl, by simp [containerCycle, containerCyclePubs, applyPub]⟩

/-- Along any run, a retained container `errors` payload stays within the
5-event bound. -/
theorem run_errors_bound (inps : List CycleInput) (s : ContainerState)
    (h : ∀ l, s.retained.errors = some (.pList l) → l.length ≤ 5) :
    ∀ l, (runCycles s inps).retained.errors = some (.pList l) → l.length ≤ 5 := by
  induction inps generalizing s with
  | nil => simpa [runCycles] using h
  | cons i is ih =>
      intro l hl
      have step : ∀ l, (containerCycle s i).retained.errors = some (.pList l) →
          l.length ≤ 5 := by
        intro l' hl'
        rcases cycle_errors_cases s i with heq | ⟨e, rest, _, heq⟩
        · exact h l' (heq ▸ hl')
        · rw [heq] at hl'
          simp only [Option.some.injEq, CPayload.pList.injEq] at hl'
          subst hl'
          exact takeLast_length_le 5 (e :: rest)
      have hl2 : (runCycles (containerCycle s i) is).retained.errors = some (.pList l) := by
        simpa [runCycles] using hl
      exact ih (containerCycle s i) step l hl2

/-- One kernel cycle either leaves the retained `kernel_errors` payload alone
or replaces it with the trailing 10 match records of a non-empty scan. -/
theorem kcycle_errors_cases (r : KernelRetained) (inp : KInput) :
    (kernelCycle r inp).kernel_errors = r.kernel_errors ∨
    ∃ m ms, (kernelCycle r inp).kernel_errors = some (.pList (takeLast 10 (m :: ms))) := by
  cases inp with
  | dmesgFail => left; simp [kernelCycle, kernelCyclePubs, kApplyPub]
  | dmesgNonzero => left; simp [kernelCycle, kernelCyclePubs, kApplyPub]
  | dmesgOk lines ts =>
      cases hk : kernelScan lines ts with
      | nil => left; simp [kernelCycle, kernelCyclePubs, hk, kernelPubsOf, kApplyPub]
      | cons m ms =>
          right
          exact ⟨m, ms, by simp [kernelCycle, kernelCyclePubs, hk, kernelPubsOf, kApplyPub]⟩

/-- Along any run, a retained `kernel_errors` payload stays within the
10-record bound. -/
theorem kernel_run_errors_bound (inps : List KInput) (r : KernelRetained)
    (h : ∀ l, r.kernel_errors = some (.pList l) → l.length ≤ 10) :
    ∀ l, (kernelRun r inps).kernel_errors = some (.pList l) → l.length ≤ 10 := by
  induction inps generalizing r with
  | nil => simpa [kernelRun] using h
  | cons i is ih =>
      intro l hl
      have step : ∀ l, (kernelCycle r i).kernel_errors = some (.pList l) →
          l.length ≤ 10 := by
        intro l' hl'
        rcases kcycle_errors_cases r i with heq | ⟨m, ms, heq⟩
        · exact h l' (heq ▸ hl')
        · rw [heq] at hl'
          simp only [Option.some.injEq, KPayload.pList.injEq] at hl'
          subst hl'
          exact takeLast_length_le 10 (m :: ms)
      have hl2 : (kernelRun (kernelCycle r i) is).kernel_errors = some (.pList l) := by
        simpa [kernelRun] using hl
      exact ih (kernelCycle r i) step l hl2

/-- C3 counterexample: after a cycle whose window held one event, a second
cycle with one new event publishes a snapshot holding only the new event,
not the earlier event followed by the new one. -/
theorem snapshot_not_cumulative :
    (runCycles initContainer [.scanOk [⟨.ERROR, "first", "t1"⟩]]).retained.errors =
        some (.pList [⟨.ERROR, "first", "t1"⟩]) ∧
    (runCycles initContainer
        [.scanOk [⟨.ERROR, "first", "t1"⟩],
         .scanOk [⟨.ERROR, "second", "t2"⟩]]).retained.errors =
        some (.pList [⟨.ERROR, "second", "t2"⟩]) ∧
    ([(⟨.ERROR, "second", "t2"⟩ : Event)] ≠
      [⟨.ERROR, "first", "t1"⟩, ⟨.ERROR, "second", "t2"⟩]) := by
  exact ⟨rfl, rfl, by decide⟩

/-- C3 amended: a cycle whose window yields a non-empty event list publishes
as the recent-errors snapshot exactly the trailing (at most 5) events of the
current window, in log order, regardless of any previously retained snapshot;
events of earlier cycles are not carried over. -/
theorem snapshot_window_tail (s : ContainerState) (e : Event) (evs : List Event) :
    (containerCycle s (.scanOk (e :: evs))).retained.errors =
        some (.pList (takeLast 5 (e :: evs))) ∧
    (takeLast 5 (e :: evs)).length = min (e :: evs).length 5 ∧
    takeLast 5 (e :: evs) <:+ (e :: evs) := by
  refine ⟨by simp [containerCycle, containerCyclePubs, applyPub], ?_, ?_⟩
  · simp [takeLast]
    omega
  · exact List.drop_suffix _ _

/-- C4 counterexample: a cycle with 4 events followed by a cycle with 3 more
leaves a published list of only the 3 newest events, not the last 5 of the 7
that arrived. -/
theorem retention_cross_cycle_gap :
    (runCycles initContainer
        [.scanOk [⟨.ERROR, "m1", "t"⟩, ⟨.ERROR, "m2", "t"⟩,
                  ⟨.ERROR, "m3", "t"⟩, ⟨.ERROR, "m4", "t"⟩],
         .scanOk [⟨.ERROR, "m5", "t"⟩, ⟨.ERROR, "m6", "t"⟩,
                  ⟨.ERROR, "m7", "t"⟩]]).retained.errors =
        some (.pList [⟨.ERROR, "m5", "t"⟩, ⟨.ERROR, "m6", "t"⟩, ⟨.ERROR, "m7", "t"⟩]) ∧
    ([(⟨.ERROR, "m5", "t"⟩ : Event), ⟨.ERROR, "m6", "t"⟩, ⟨.ERROR, "m7", "t"⟩] ≠
      [⟨.ERROR, "m3", "t"⟩, ⟨.ERROR, "m4", "t"⟩, ⟨.ERROR, "m5", "t"⟩,
       ⟨.ERROR, "m6", "t"⟩, ⟨.ERROR, "m7", "t"⟩]) := by
  exact ⟨rfl, by decide⟩

/-- C4 amended: every published recent-errors payload respects the retention
cap (5 events for a container, 10 records for the kernel) across any number of
cycles, and within a single window eviction is oldest-first: a non-empty
window publishes exactly its trailing 5 events.  Snapshots do not accumulate
across cycles. -/
theorem retention_caps :
    (∀ (inps : List CycleInput) (l : List Event),
        (runCycles initContainer inps).retained.errors = some (.pList l) →
          l.length ≤ 5) ∧
    (∀ (inps : List KInput) (l : List KEvent),
        (kernelRun initKernel inps).kernel_errors = some (.pList l) →
          l.length ≤ 10) ∧
    (∀ (s : ContainerState) (e : Event) (evs : List Event),
        (containerCycle s (.scanOk (e :: evs))).retained.errors =
          some (.pList (takeLast 5 (e :: evs)))) := by
  refine ⟨?_, ?_, ?_⟩
  · intro inps
    refine run_errors_bound inps initContainer ?_
    intro l hl
    simp [initContainer] at hl
  · intro inps
    refine kernel_run_errors_bound inps initKernel ?_
    intro l hl
    simp [initKernel] at hl
  · intro s e evs
    simp [containerCycle, containerCyclePubs, applyPub]

/-- C4 witness: the bounds applied to a 7-event container window and a
one-line kernel scan. -/
theorem retention_caps_check :
    ([(⟨.ERROR, "m3", "t"⟩ : Event), ⟨.ERROR, "m4", "t"⟩, ⟨.ERROR, "m5", "t"⟩,
      ⟨.ERROR, "m6", "t"⟩, ⟨.ERROR, "m7", "t"⟩]).length ≤ 5 ∧
    ([(⟨"nvme x", "t"⟩ : KEvent)]).length ≤ 10 :=
  ⟨retention_caps.1
      [.scanOk [⟨.ERROR, "m1", "t"⟩, ⟨.ERROR, "m2", "t"⟩, ⟨.ERROR, "m3", "t"⟩,
                ⟨.ERROR, "m4", "t"⟩, ⟨.ERROR, "m5", "t"⟩, ⟨.ERROR, "m6", "t"⟩,
                ⟨.ERROR, "m7", "t"⟩]]
      [⟨.ERROR, "m3", "t"⟩, ⟨.ERROR, "m4", "t"⟩, ⟨.ERROR, "m5", "t"⟩,
       ⟨.ERROR, "m6", "t"⟩, ⟨.ERROR, "m7", "t"⟩] rfl,
   retention_caps.2.1 [.dmesgOk ["nvme x".toList] "t"] [⟨"nvme x", "t"⟩] rfl⟩

/-- C5: a normalized line matching the warning-tier pattern always gets
verdict `none`: it yields no event and contributes nothing to the window's
event list, whatever other keywords it contains. -/
theorem warning_lines_excluded (clean : List Char) (ts : String)
    (window : List (List Char)) (h : warnHit (lowerCodes clean) = true) :
    classifyLine clean = none ∧ scanLine clean ts = none ∧
    scanClean (window ++ [clean]) ts = scanClean window ts := by
  have h1 : classifyLine clean = none := by
    cases hk : keywordHit (lowerCodes clean) <;>
      simp [classifyLine, classifyCore, hk, h]
  have h2 : scanLine clean ts = none := by simp [scanLine, h1]
  refine ⟨h1, h2, ?_⟩
  simp [scanClean, List.filterMap_append, h2]

/-- C5 witness: a line carrying both an error keyword and a warning marker. -/
theorem warning_lines_excluded_check :
    classifyLine "ERROR: see WARNING below".toList = none ∧
    scanLine "ERROR: see WARNING below".toList "t" = none ∧
    scanClean ([] ++ ["ERROR: see WARNING below".toList]) "t" = scanClean [] "t" :=
  warning_lines_excluded "ERROR: see WARNING below".toList "t" [] (by decide)

/-- C6: a line that passes the broad keyword filter, is not warning-excluded,
and matches both the critical pattern and the error pattern classifies as
CRITICAL, never ERROR. -/
theorem critical_beats_error (clean : List Char)
    (hk : keywordHit (lowerCodes clean) = true)
    (hw : warnHit (lowerCodes clean) = false)
    (hc : critHit (lowerCodes clean) = true)
    (he : errHit (lowerCodes clean) = true) :
    classifyLine clean = some .CRITICAL := by
  simp [classifyLine, classifyCore, hk, hw, hc]

/-- C6 witness: a line matching both FATAL and ERROR word patterns. -/
theorem critical_beats_error_check :
    classifyLine "FATAL ERROR occurred".toList = some .CRITICAL :=
  critical_beats_error "FATAL ERROR occurred".toList
    (by decide) (by decide) (by decide) (by decide)

/-- C7 counterexample: kernel matching is case-sensitive: the line `TIMEOUT`
does not match the kernel keyword set although its lowercase image does. -/
theorem kernel_case_mismatch :
    kernelLineMatches ("TIMEOUT".toList.map Char.toLower) = true ∧
    kernelLineMatches "TIMEOUT".toList = false := by
  refine ⟨?_, ?_⟩ <;> decide

/-- C7 amended: the container classifier is case-insensitive: its verdict
depends only on the case-folded codepoints of the line, so two lines equal up
to ASCII case classify identically.  The kernel path, by contrast, matches
keywords case-sensitively: `timeout` matches but `TIMEOUT` does not. -/
theorem case_folding_scope :
    (∀ (l l' : List Char), lowerCodes l = lowerCodes l' →
        classifyLine l = classifyLine l') ∧
    kernelLineMatches "timeout".toList = true ∧
    kernelLineMatches "TIMEOUT".toList = false := by
  refine ⟨?_, by decide, by decide⟩
  intro l l' h
  unfold classifyLine
  rw [h]

/-- C7 witness: two case-variants of one line classify identically. -/
theorem case_folding_scope_check :
    classifyLine "Error: Disk Full".toList = classifyLine "ERROR: disk full".toList ∧
    kernelLineMatches "timeout".toList = true :=
  ⟨case_folding_scope.1 "Error: Disk Full".toList "ERROR: disk full".toList (by decide),
   case_folding_scope.2.1⟩

/-- C8: a line that passes the broad keyword filter, is not warning-excluded,
and matches neither the critical nor the error pattern still classifies as
ERROR (the default tier) and is recorded as an event. -/
theorem default_tier_error (clean : List Char) (ts : String)
    (hk : keywordHit (lowerCodes clean) = true)
    (hw : warnHit (lowerCodes clean) = false)
    (hc : critHit (lowerCodes clean) = false)
    (he : errHit (lowerCodes clean) = false) :
    classifyLine clean = some .ERROR ∧
    scanLine clean ts = some ⟨.ERROR, (clean.take 500).asString, ts⟩ := by
  have h1 : classifyLine clean = some .ERROR := by
    simp [classifyLine, classifyCore, hk, hw, hc, he]
  exact ⟨h1, by simp [scanLine, h1]⟩

/-- C8 witness: `errors detected` passes the keyword filter via the substring
`error` but matches no word-boundary tier pattern, and defaults to ERROR. -/
theorem default_tier_error_check :
    classifyLine "errors detected".toList = some .ERROR ∧
    scanLine "errors detected".toList "t" =
      some ⟨.ERROR, ("errors detected".toList.take 500).asString, "t"⟩ :=
  default_tier_error "errors detected".toList "t"
    (by decide) (by decide) (by decide) (by decide)

end Monitor
